import Mathlib

/-!
Verification of the monopoly-analytics simulation core.

This file gives a shallow embedding of the repository's Python source into
Lean 4 and proves/refutes the specification's claims about it.

Conventions of the embedding:
* Python floats are modelled as exact rationals (`ℚ`); all money, rent and
  probability arithmetic in the source is plain `+ - * /` on floats, which
  the rational model reproduces exactly up to floating-point rounding.
* Board positions are modelled as `Int` (Python ints), so that Python's
  negative-index list semantics can be stated faithfully.
* Python dicts keyed by position are modelled as association lists in
  insertion order; Python lists are Lean lists.
* Fallible Python code (list indexing, attribute errors, bad keyword
  arguments) is modelled with `Except PyErr`.
-/

/-- Python exception kinds that the embedded code can raise. -/
inductive PyErr where
  | indexError : PyErr
  | typeError : PyErr
deriving Repr, DecidableEq

/-- Python list indexing semantics: a negative index `i` addresses element
`i + len`; an index out of `[-len, len)` raises `IndexError`. -/
def pyListGet {α : Type} (l : List α) (i : Int) : Except PyErr α :=
  let j : Int := if i < 0 then i + (l.length : Int) else i
  if 0 ≤ j then
    match l.get? j.toNat with
    | some a => Except.ok a
    | none => Except.error PyErr.indexError
  else Except.error PyErr.indexError

/-- Lookup in a Python dict modelled as an association list
(`d.get(k, dflt)`). -/
def dictGet (d : List (Int × Nat)) (k : Int) (dflt : Nat) : Nat :=
  match d.find? (fun kv => kv.1 = k) with
  | some kv => kv.2
  | none => dflt

/-- Update/insert in a Python dict modelled as an association list
(`d[k] = v`), preserving insertion order. -/
def dictInsert (d : List (Int × Nat)) (k : Int) (v : Nat) : List (Int × Nat) :=
  if d.any (fun kv => kv.1 = k) then
    d.map (fun kv => if kv.1 = k then (k, v) else kv)
  else d ++ [(k, v)]

/-- `Property` from src/properties.py: one board space with its rent
schedule.  Optional fields are `None` for non-purchasable spaces. -/
structure Property where
  position : Int
  name : String
  property_type : String
  color : Option String
  purchase_price : Option ℚ
  mortgage_value : Option ℚ
  base_rent : Option ℚ
  rent_with_color_set : Option ℚ
  rent_1_house : Option ℚ
  rent_2_house : Option ℚ
  rent_3_house : Option ℚ
  rent_4_house : Option ℚ
  rent_hotel : Option ℚ
  house_cost : Option ℚ
deriving Repr, DecidableEq

/-- `Property.is_purchasable` from src/properties.py. -/
def Property.is_purchasable (p : Property) : Bool :=
  p.property_type = "Street" ∨ p.property_type = "Railroad" ∨ p.property_type = "Utility"

/-- `Property.get_rent` from src/properties.py.  Python's `x or 0.0` on an
optional float yields `0.0` both for `None` and for `0.0`, which is exactly
`Option.getD _ 0`. -/
def Property.get_rent (p : Property) (has_monopoly : Bool) (houses : Nat) : ℚ :=
  if ¬ p.is_purchasable then 0
  else if houses = 0 then
    if has_monopoly ∧ p.property_type = "Street" then p.rent_with_color_set.getD 0
    else p.base_rent.getD 0
  else if houses = 1 then p.rent_1_house.getD 0
  else if houses = 2 then p.rent_2_house.getD 0
  else if houses = 3 then p.rent_3_house.getD 0
  else if houses = 4 then p.rent_4_house.getD 0
  else if houses = 5 then p.rent_hotel.getD 0
  else 0

/-- `MonopolyBoard` from src/properties.py: the ordered list of board
spaces and the color-group index built at construction. -/
structure MonopolyBoard where
  properties : List Property
  color_groups : List (String × List Int)
deriving Repr, DecidableEq

/-- `MonopolyBoard.get_property` from src/properties.py line 87-89: a bare
Python list index `self.properties[position]`. -/
def MonopolyBoard.get_property (b : MonopolyBoard) (position : Int) : Except PyErr Property :=
  pyListGet b.properties position

/-- Lookup of a color group (`self.color_groups[color]` via `get`/`in`). -/
def MonopolyBoard.colorGroupOf (b : MonopolyBoard) (color : String) : Option (List Int) :=
  (b.color_groups.find? (fun cg => cg.1 = color)).map (fun cg => cg.2)

/-- `MonopolyBoard.has_monopoly` from src/properties.py: the color's group
must be a subset of the owned positions. -/
def MonopolyBoard.has_monopoly (b : MonopolyBoard) (owned_positions : List Int)
    (color : String) : Bool :=
  match b.colorGroupOf color with
  | none => false
  | some required => required.all (fun pos => pos ∈ owned_positions)

/-- `Player` from src/game_state.py. -/
structure Player where
  name : String
  cash : ℚ
  position : Int
  owned_properties : List Int
  houses : List (Int × Nat)
  in_jail : Bool
  jail_turns : Nat
  is_bankrupt : Bool
  risk_tolerance : ℚ
  min_cash_reserve : ℚ
deriving Repr, DecidableEq

/-- `Player.can_afford` from src/game_state.py lines 24-26. -/
def Player.can_afford (p : Player) (amount : ℚ) : Bool :=
  p.cash - amount ≥ p.min_cash_reserve

/-- `Player.pay` from src/game_state.py lines 28-34: subtract the amount,
flag bankruptcy when the cash goes below zero.  Returns the updated player
and the Python return value. -/
def Player.pay (p : Player) (amount : ℚ) : Player × Bool :=
  let p' := { p with cash := p.cash - amount }
  if p'.cash < 0 then ({ p' with is_bankrupt := true }, false)
  else (p', true)

/-- `Player.receive` from src/game_state.py lines 36-38. -/
def Player.receive (p : Player) (amount : ℚ) : Player :=
  { p with cash := p.cash + amount }

/-- `Player.buy_property` from src/game_state.py lines 40-48. -/
def Player.buy_property (p : Player) (position : Int) (price : ℚ) : Player × Bool :=
  if ¬ p.can_afford price then (p, false)
  else ({ p with
            cash := p.cash - price,
            owned_properties := p.owned_properties ++ [position],
            houses := dictInsert p.houses position 0 }, true)

/-- `Player.owns_property` from src/game_state.py lines 50-52. -/
def Player.owns_property (p : Player) (position : Int) : Bool :=
  position ∈ p.owned_properties

/-- `Player.move` from src/game_state.py lines 58-64.  Python's `%` on a
positive modulus is `Int.emod`.  Returns the moved player and the
passed-GO flag. -/
def Player.move (p : Player) (spaces : Int) (board_size : Int) : Player × Bool :=
  let new_position := (p.position + spaces) % board_size
  ({ p with position := new_position }, new_position < p.position)

/-- `GameState` from src/game_state.py. -/
structure GameState where
  board : MonopolyBoard
  players : List Player
  current_turn : Nat
  current_player_idx : Nat
  total_turns : Nat
deriving Repr, DecidableEq

/-- `GameState.get_property_owner` from src/game_state.py lines 87-92: the
first player (in list order) owning the position. -/
def GameState.get_property_owner (g : GameState) (position : Int) : Option Player :=
  g.players.find? (fun p => p.owns_property position)

/-- `GameState.player_has_monopoly` from src/game_state.py lines 109-111. -/
def GameState.player_has_monopoly (g : GameState) (p : Player) (color : String) : Bool :=
  g.board.has_monopoly p.owned_properties color

/-- `GameMechanics.calculate_rent` from src/mechanics.py lines 99-130. -/
def calculate_rent (g : GameState) (position : Int) (owner : Player) : Except PyErr ℚ :=
  match g.board.get_property position with
  | Except.error e => Except.error e
  | Except.ok prop =>
    let houses := dictGet owner.houses position 0
    let has_monopoly :=
      match prop.color with
      | some c => if prop.property_type = "Street" then g.player_has_monopoly owner c else false
      | none => false
    if prop.property_type = "Railroad" then
      let railroad_positions : List Int := [5, 15, 25, 35]
      let owned_railroads := (railroad_positions.filter (fun pos => owner.owns_property pos)).length
      Except.ok (25 * 2 ^ (owned_railroads - 1))
    else if prop.property_type = "Utility" then
      let utility_positions : List Int := [12, 28]
      let owned_utilities := (utility_positions.filter (fun pos => owner.owns_property pos)).length
      let multiplier : ℚ := if owned_utilities = 2 then 10 else 4
      Except.ok (7 * multiplier)
    else
      Except.ok (prop.get_rent has_monopoly houses)

/-- The pay-rent branch of `GameMechanics.handle_landing` (src/mechanics.py
lines 88-97): compute the rent, payer pays it, owner receives it.  Returns
the updated payer, the updated owner and the transferred rent. -/
def handleRentPayment (g : GameState) (position : Int) (payer owner : Player) :
    Except PyErr (Player × Player × ℚ) :=
  match calculate_rent g position owner with
  | Except.error e => Except.error e
  | Except.ok rent => Except.ok ((payer.pay rent).1, owner.receive rent, rent)

/-- `GameMechanics.purchase_property` from src/mechanics.py lines 132-149.
Returns the (possibly updated) buying player together with the Python
boolean result. -/
def purchase_property (g : GameState) (player : Player) (position : Int) :
    Except PyErr (Player × Bool) :=
  match g.board.get_property position with
  | Except.error e => Except.error e
  | Except.ok prop =>
    if ¬ prop.is_purchasable then Except.ok (player, false)
    else match g.get_property_owner position with
      | some _ => Except.ok (player, false)
      | none =>
        match prop.purchase_price with
        | none => Except.ok (player, false)
        | some price => Except.ok (player.buy_property position price)

/-- Parameter names accepted by `GameMechanics.__init__`
(src/mechanics.py lines 12-14), after `self`. -/
def gameMechanicsInitParams : List String := ["game_state"]

/-- Python call-binding semantics for a keyword argument: the call raises
`TypeError` unless the keyword names a declared parameter. -/
def callAcceptsKeyword (params : List String) (kw : String) : Bool :=
  kw ∈ params

/-- The `GameMechanics(game, enable_house_building=...)` construction step
executed by `MonopolySimulator.run_single_simulation` (src/simulator.py
line 72), under Python call-binding semantics against the
`GameMechanics.__init__` signature of src/mechanics.py lines 12-14. -/
def runSingleSimulationMechanicsConstruction (_enable_house_building : Bool) :
    Except PyErr Unit :=
  if callAcceptsKeyword gameMechanicsInitParams "enable_house_building" then
    Except.ok ()
  else Except.error PyErr.typeError

/-- `DevelopmentOption` from src/house_building.py lines 9-22. -/
structure DevelopmentOption where
  property_positions : List Int
  property_name : String
  color_group : String
  current_houses : Nat
  new_houses : Nat
  cost : ℚ
  rent_increase : ℚ
  expected_value : ℚ
  ev_per_dollar : ℚ
  is_hotel : Bool
deriving Repr, DecidableEq

/-- `HouseBuildingEngine._calculate_landing_probabilities`
(src/house_building.py lines 95-138), before the final renormalization.
The float literals 1.25, 1.10, 1.05, 1.5 are the rationals used here. -/
def rawLandingProb (pos : Nat) : ℚ :=
  let base_prob : ℚ := 1 / 40
  if 16 ≤ pos ∧ pos ≤ 19 then base_prob * (125 / 100)
  else if 21 ≤ pos ∧ pos ≤ 24 then base_prob * (110 / 100)
  else if pos = 5 ∨ pos = 15 ∨ pos = 25 ∨ pos = 35 then base_prob * (105 / 100)
  else if pos = 30 then 0
  else if pos = 10 then base_prob * (150 / 100)
  else base_prob

/-- The normalization constant `total = sum(probs.values())` of
src/house_building.py line 137. -/
def landingProbTotal : ℚ :=
  ((List.range 40).map rawLandingProb).sum

/-- The landing-probability table as returned by
`_calculate_landing_probabilities` (src/house_building.py line 138):
each raw entry divided by the total, computed once at engine
construction. -/
def landingProbs (pos : Nat) : ℚ :=
  rawLandingProb pos / landingProbTotal

/-- `self.landing_probs.get(property_pos, 1.0/40)` from
src/house_building.py line 215: table lookup with the uniform default for
keys outside 0-39. -/
def landingProbsGet (pos : Int) : ℚ :=
  if 0 ≤ pos ∧ pos < 40 then landingProbs pos.toNat else 1 / 40

/-- `HouseBuildingEngine._get_player_monopolies`
(src/house_building.py lines 84-93): the color groups all of whose
positions the player owns, in board-index order. -/
def getPlayerMonopolies (board : MonopolyBoard) (player : Player) :
    List (String × List Int) :=
  board.color_groups.filter (fun cp => cp.2.all (fun pos => player.owns_property pos))

/-- Option generation for one color group, inner loop of
`HouseBuildingEngine._generate_development_options`
(src/house_building.py lines 150-196).  `min(current_houses)` on a
nonempty group is `minimum?.getD 0`; board construction never produces an
empty color group.  Street properties always carry a `house_cost`, whose
absence Python would fault on later; `getD 0` keeps the embedding total. -/
def generateOptionsForGroup (board : MonopolyBoard) (player : Player)
    (color : String) (positions : List Int) : List DevelopmentOption :=
  let current_houses := positions.map (fun pos => dictGet player.houses pos 0)
  let min_houses := current_houses.min?.getD 0
  if min_houses ≥ 5 then []
  else
    let properties_to_build := positions.filter (fun pos => dictGet player.houses pos 0 = min_houses)
    properties_to_build.filterMap (fun pos =>
      match board.get_property pos with
      | Except.error _ => none
      | Except.ok prop =>
        let cost := prop.house_cost.getD 0
        let is_hotel := ¬ (min_houses < 4)
        let old_rent := prop.get_rent true min_houses
        let new_rent := prop.get_rent true (min_houses + 1)
        some { property_positions := [pos]
               property_name := prop.name
               color_group := color
               current_houses := min_houses
               new_houses := min_houses + 1
               cost := cost
               rent_increase := new_rent - old_rent
               expected_value := 0
               ev_per_dollar := 0
               is_hotel := is_hotel })

/-- `HouseBuildingEngine._generate_development_options`
(src/house_building.py lines 140-198): concatenation over the monopoly
color groups in order. -/
def generateDevelopmentOptions (board : MonopolyBoard) (player : Player)
    (monopolies : List (String × List Int)) : List DevelopmentOption :=
  monopolies.flatMap (fun cp => generateOptionsForGroup board player cp.1 cp.2)

/-- `HouseBuildingEngine._calculate_expected_value`
(src/house_building.py lines 200-224):
EV = rent_increase x landing_prob x remaining_turns x num_opponents.
`option.property_positions[0]` is the head; generated options always carry
exactly one position. -/
def calculateExpectedValue (o : DevelopmentOption) (remaining_turns : Nat)
    (num_opponents : Nat) : ℚ :=
  let property_pos := o.property_positions.headI
  let landing_prob := landingProbsGet property_pos
  let expected_landings := landing_prob * remaining_turns * num_opponents
  o.rent_increase * expected_landings

/-- The multiplier accumulated by
`HouseBuildingEngine._apply_strategic_preferences`
(src/house_building.py lines 226-261) for one option. -/
def strategicMultiplier (o : DevelopmentOption) (player : Player) : ℚ :=
  let m : ℚ := 1
  let m := if o.is_hotel then m * (13 / 10) else m
  let m := if o.color_group = "Orange" then m * (12 / 10)
           else if o.color_group = "Red" ∨ o.color_group = "Yellow" then m * (11 / 10)
           else m
  let m := if o.current_houses = 0 then m * (115 / 100) else m
  if player.risk_tolerance > 7 / 10 then
    if o.cost > 150 then m * (11 / 10) else m
  else if player.risk_tolerance < 4 / 10 then
    if o.cost < 100 then m * (11 / 10) else m
  else m

/-- `HouseBuildingEngine._apply_strategic_preferences` on one option:
only the `ev_per_dollar` field is mutated (src/house_building.py
line 261). -/
def applyStrategicPreferences (o : DevelopmentOption) (player : Player) :
    DevelopmentOption :=
  { o with ev_per_dollar := o.ev_per_dollar * strategicMultiplier o player }

/-- Sort relation used by `_greedy_selection`'s
`sorted(options, key=..., reverse=True)`: descending `ev_per_dollar`.
Insertion sort with this relation is the stable descending sort that
Python's `sorted` performs. -/
def evDescending (a b : DevelopmentOption) : Prop :=
  b.ev_per_dollar ≤ a.ev_per_dollar

instance : DecidableRel evDescending :=
  fun a b => inferInstanceAs (Decidable (b.ev_per_dollar ≤ a.ev_per_dollar))

/-- Conflict test of `_greedy_selection` (src/house_building.py lines
281-285): the option targets a property already claimed by an earlier
selection. -/
def optionConflicts (o : DevelopmentOption) (selected : List DevelopmentOption) : Bool :=
  o.property_positions.any (fun pos =>
    selected.any (fun sel => pos ∈ sel.property_positions))

/-- The selection loop of `HouseBuildingEngine._greedy_selection`
(src/house_building.py lines 272-298): skip on budget overrun
(`spent + cost > available_cash`) or conflict, otherwise select; break as
soon as the committed spend reaches 95% of the budget. -/
def greedySelectionGo (available_cash : ℚ) :
    List DevelopmentOption → List DevelopmentOption → ℚ → List DevelopmentOption
  | [], selected, _ => selected
  | o :: rest, selected, spent =>
    if spent + o.cost > available_cash then
      greedySelectionGo available_cash rest selected spent
    else if optionConflicts o selected then
      greedySelectionGo available_cash rest selected spent
    else
      let selected' := selected ++ [o]
      let spent' := spent + o.cost
      if spent' ≥ available_cash * (95 / 100) then selected'
      else greedySelectionGo available_cash rest selected' spent'

/-- `HouseBuildingEngine._greedy_selection`
(src/house_building.py lines 263-298). -/
def greedySelection (options : List DevelopmentOption) (available_cash : ℚ) :
    List DevelopmentOption :=
  greedySelectionGo available_cash (options.insertionSort evDescending) [] 0

/-- The opponent count of src/house_building.py line 66: players that are
not bankrupt and not (field-)equal to the deciding player. -/
def numOpponents (g : GameState) (player : Player) : Nat :=
  (g.players.filter (fun p => ¬ p.is_bankrupt ∧ p ≠ player)).length

/-- Score assignment of src/house_building.py lines 68-74: set
`expected_value` to the analytic EV and `ev_per_dollar` to EV per unit
cost (0 for a zero-cost option). -/
def assignScores (o : DevelopmentOption) (remaining_turns : Nat)
    (num_opponents : Nat) : DevelopmentOption :=
  let ev := calculateExpectedValue o remaining_turns num_opponents
  { o with expected_value := ev
           ev_per_dollar := if o.cost > 0 then ev / o.cost else 0 }

/-- `HouseBuildingEngine.decide_development`
(src/house_building.py lines 33-82): monopolies, budget gate, option
generation, EV scoring, strategic preferences, greedy selection. -/
def decideDevelopment (player : Player) (game_state : GameState)
    (estimated_remaining_turns : Nat) : List DevelopmentOption :=
  let monopolies := getPlayerMonopolies game_state.board player
  if monopolies.isEmpty then []
  else
    let available_cash := player.cash - player.min_cash_reserve
    if available_cash < 50 then []
    else
      let options := generateDevelopmentOptions game_state.board player monopolies
      if options.isEmpty then []
      else
        let num_opponents := numOpponents game_state player
        let options := options.map (fun o => assignScores o estimated_remaining_turns num_opponents)
        let options := options.map (fun o => applyStrategicPreferences o player)
        greedySelection options available_cash

/-- `SimulationResult` from src/simulator.py lines 28-41.  The
`rent_by_turn` dict has keys exactly 0..turns_played-1 in insertion order,
so it is modelled as the list of its values in turn order. -/
structure SimulationResult where
  turns_played : Nat
  property_purchased : Bool
  purchase_turn : Int
  purchase_price : ℚ
  total_rent_collected : ℚ
  total_rent_paid : ℚ
  rent_by_turn : List ℚ
  break_even_turn : Int
  final_player_cash : ℚ
  player_won : Bool
  player_bankrupt : Bool
deriving Repr, DecidableEq

/-- The break-even search loop of `run_single_simulation`
(src/simulator.py lines 139-144), iterating the `rent_by_turn` entries in
turn order starting from turn `t`. -/
def breakEvenGo (purchase_turn : Int) : Nat → List ℚ → Int
  | _, [] => -1
  | t, c :: rest =>
    if purchase_turn < (t : Int) ∧ 0 ≤ c then (t : Int)
    else breakEvenGo purchase_turn (t + 1) rest

/-- Break-even turn computation of `run_single_simulation`
(src/simulator.py lines 138-144): -1 unless the property was purchased and
some recorded turn strictly after the purchase turn has cumulative net
value at least 0. -/
def computeBreakEvenTurn (was_purchased : Bool) (purchase_turn : Int)
    (rent_by_turn : List ℚ) : Int :=
  if was_purchased then breakEvenGo purchase_turn 0 rent_by_turn else -1

/-- Sort in ascending order, as numpy's statistics routines do internally. -/
def sortQ (l : List ℚ) : List ℚ :=
  l.insertionSort (fun a b => a ≤ b)

/-- Sort an integer list in ascending order. -/
def sortInt (l : List Int) : List Int :=
  l.insertionSort (fun a b => a ≤ b)

/-- `np.mean` over the rational model (callers guard against empty
input). -/
def meanQ (l : List ℚ) : ℚ :=
  l.sum / l.length

/-- `np.median` over the rational model: middle element of the sorted
list, or the average of the two middle elements for even length. -/
def medianQ (l : List ℚ) : ℚ :=
  let s := sortQ l
  let n := s.length
  if n % 2 = 1 then s.getD (n / 2) 0
  else (s.getD (n / 2 - 1) 0 + s.getD (n / 2) 0) / 2

/-- The square of `np.std` (population variance, ddof = 0): the reported
standard deviation is its square root, so two aggregates agree on the
reported std exactly when they agree on this value. -/
def varQ (l : List ℚ) : ℚ :=
  meanQ (l.map (fun x => (x - meanQ l) ^ 2))

/-- `np.percentile` with the default linear interpolation: index
`h = (n-1) q / 100` into the sorted list, interpolating between the
neighbouring elements. -/
def percentileQ (q : ℚ) (l : List ℚ) : ℚ :=
  let s := sortQ l
  let n := s.length
  let h : ℚ := ((n : ℚ) - 1) * q / 100
  let k : Nat := (Int.floor h).toNat
  let d : ℚ := h - (k : ℚ)
  s.getD k 0 + d * (s.getD (k + 1) 0 - s.getD k 0)

/-- The purchased-trial filter of `_aggregate_results`
(src/simulator.py line 202). -/
def purchasedOf (results : List SimulationResult) : List SimulationResult :=
  results.filter (fun r => r.property_purchased)

/-- `break_even_turns` of src/simulator.py lines 213-214: break-even turns
of purchased trials with a strictly positive break-even turn, in trial
order. -/
def breakEvenTurnsOf (purchased : List SimulationResult) : List Int :=
  (purchased.filter (fun r => r.break_even_turn > 0)).map (fun r => r.break_even_turn)

/-- `max_turn = max(r.turns_played for r in purchased_results)`
(src/simulator.py line 217). -/
def maxTurnOf (purchased : List SimulationResult) : Nat :=
  (purchased.map (fun r => r.turns_played)).foldr max 0

/-- Column `t` of the `rent_by_turn_matrix` of src/simulator.py lines
218-226: each purchased trial's padded cumulative net at turn `t`
(`r.rent_by_turn.get(t, 0)`). -/
def rentColumn (purchased : List SimulationResult) (t : Nat) : List ℚ :=
  purchased.map (fun r => r.rent_by_turn.getD t 0)

/-- The statistics dict built by `_aggregate_results`
(src/simulator.py lines 229-260).  The two `*_std_sq` scalar fields and
the `rent_by_turn_std_sq` curve hold the squares of the np.std values. -/
structure AggregateStatistics where
  property_name : String
  property_position : Int
  property_price : Option ℚ
  num_simulations : Nat
  purchase_rate : ℚ
  break_even_mean : ℚ
  break_even_median : ℚ
  break_even_std_sq : ℚ
  break_even_distribution : List Int
  break_even_rate : ℚ
  total_rent_mean : ℚ
  total_rent_median : ℚ
  total_rent_std_sq : ℚ
  rent_by_turn_mean : List ℚ
  rent_by_turn_std_sq : List ℚ
  rent_by_turn_p25 : List ℚ
  rent_by_turn_p75 : List ℚ
  win_rate : ℚ
  bankruptcy_rate : ℚ
  final_cash_mean : ℚ
deriving Repr, DecidableEq

/-- The two shapes of dict `_aggregate_results` can return: the explicit
"never purchased" outcome of src/simulator.py lines 204-210 (carrying the
`error` status string) or the full statistics record. -/
inductive AggregateResult where
  | neverPurchased (property_name : String) (property_price : Option ℚ)
      (purchase_rate : ℚ) (error_message : String)
  | stats (s : AggregateStatistics)
deriving Repr, DecidableEq

/-- The body of `MonopolySimulator._aggregate_results`
(src/simulator.py lines 197-262) after the board lookup. -/
def aggregateCore (prop : Property) (results : List SimulationResult)
    (position : Int) : AggregateResult :=
  let purchased := purchasedOf results
  if purchased.isEmpty then
    AggregateResult.neverPurchased prop.name prop.purchase_price 0
      "Property never purchased in simulations"
  else
    let break_even_turns := breakEvenTurnsOf purchased
    let beQ : List ℚ := break_even_turns.map (fun (i : Int) => (i : ℚ))
    let max_turn := maxTurnOf purchased
    AggregateResult.stats
      { property_name := prop.name
        property_position := position
        property_price := prop.purchase_price
        num_simulations := results.length
        purchase_rate := (purchased.length : ℚ) / (results.length : ℚ)
        break_even_mean := if break_even_turns.isEmpty then -1 else meanQ beQ
        break_even_median := if break_even_turns.isEmpty then -1 else medianQ beQ
        break_even_std_sq := if break_even_turns.isEmpty then 0 else varQ beQ
        break_even_distribution := break_even_turns
        break_even_rate := (break_even_turns.length : ℚ) / (purchased.length : ℚ)
        total_rent_mean := meanQ (purchased.map (fun r => r.total_rent_collected))
        total_rent_median := medianQ (purchased.map (fun r => r.total_rent_collected))
        total_rent_std_sq := varQ (purchased.map (fun r => r.total_rent_collected))
        rent_by_turn_mean :=
          (List.range (max_turn + 1)).map (fun t => meanQ (rentColumn purchased t))
        rent_by_turn_std_sq :=
          (List.range (max_turn + 1)).map (fun t => varQ (rentColumn purchased t))
        rent_by_turn_p25 :=
          (List.range (max_turn + 1)).map (fun t => percentileQ 25 (rentColumn purchased t))
        rent_by_turn_p75 :=
          (List.range (max_turn + 1)).map (fun t => percentileQ 75 (rentColumn purchased t))
        win_rate := meanQ (purchased.map (fun r => if r.player_won then 1 else 0))
        bankruptcy_rate := meanQ (purchased.map (fun r => if r.player_bankrupt then 1 else 0))
        final_cash_mean := meanQ (purchased.map (fun r => r.final_player_cash)) }

/-- `MonopolySimulator._aggregate_results` (src/simulator.py lines
197-262), including the `self.board.get_property(position)` lookup. -/
def aggregateResults (board : MonopolyBoard) (results : List SimulationResult)
    (position : Int) : Except PyErr AggregateResult :=
  match board.get_property position with
  | Except.error e => Except.error e
  | Except.ok prop => Except.ok (aggregateCore prop results position)

/-- Canonicalize an aggregate by sorting the raw break-even distribution;
all other fields are untouched.  Two aggregates have the same normal form
iff they agree on every field, with the distribution compared as a
multiset. -/
def normalizeAggregate (a : AggregateResult) : AggregateResult :=
  match a with
  | AggregateResult.stats s =>
      AggregateResult.stats { s with break_even_distribution := sortInt s.break_even_distribution }
  | x => x

/-- Sort-relation instances used to reason about the ascending sorts. -/
instance : IsAntisymm ℚ (fun a b : ℚ => a ≤ b) := ⟨fun _ _ h h' => le_antisymm h h'⟩

instance : IsTotal ℚ (fun a b : ℚ => a ≤ b) := ⟨fun a b => le_total a b⟩

instance : IsTrans ℚ (fun a b : ℚ => a ≤ b) := ⟨fun _ _ _ h h' => le_trans h h'⟩

instance : IsAntisymm Int (fun a b : Int => a ≤ b) := ⟨fun _ _ h h' => le_antisymm h h'⟩

instance : IsTotal Int (fun a b : Int => a ≤ b) := ⟨fun a b => le_total a b⟩

instance : IsTrans Int (fun a b : Int => a ≤ b) := ⟨fun _ _ _ h h' => le_trans h h'⟩

/-- Projection used to compare the raw break-even distribution field of two
aggregates. -/
def breakEvenDistributionOf (a : AggregateResult) : Option (List Int) :=
  match a with
  | AggregateResult.stats s => some s.break_even_distribution
  | _ => none

/-- A generic non-purchasable board space for test boards. -/
def mkSpace (i : Nat) : Property :=
  { position := (i : Int)
    name := toString i
    property_type := "Action Spaces"
    color := none
    purchase_price := none
    mortgage_value := none
    base_rent := none
    rent_with_color_set := none
    rent_1_house := none
    rent_2_house := none
    rent_3_house := none
    rent_4_house := none
    rent_hotel := none
    house_cost := none }

/-- A 40-space test board, the size of the real Monopoly board. -/
def testBoard40 : MonopolyBoard :=
  { properties := (List.range 40).map mkSpace
    color_groups := [] }

/-- Baseline player configuration for the concrete scenarios. -/
def basePlayer : Player :=
  { name := "p"
    cash := 1500
    position := 0
    owned_properties := []
    houses := []
    in_jail := false
    jail_turns := 0
    is_bankrupt := false
    risk_tolerance := 1 / 2
    min_cash_reserve := 200 }

/-- First 150-cost build of the section-8 boundary scenario (C2). -/
def optA : DevelopmentOption :=
  { property_positions := [31]
    property_name := "A"
    color_group := "Green"
    current_houses := 0
    new_houses := 1
    cost := 150
    rent_increase := 100
    expected_value := 0
    ev_per_dollar := 2
    is_hotel := false }

/-- Second 150-cost build of the boundary scenario, on a distinct
property (C2). -/
def optB : DevelopmentOption :=
  { optA with property_positions := [32], property_name := "B", ev_per_dollar := 1 }

/-- A zero-cost probe option ranked last: it would be selected if the
greedy loop kept scanning, so its absence from the output exhibits the
95%-budget break (C2). -/
def optC0 : DevelopmentOption :=
  { optA with property_positions := [34], property_name := "C", cost := 0, ev_per_dollar := 0 }

/-- A purchased trial whose break-even turn is 3 (C4 fixtures). -/
def trialA : SimulationResult :=
  { turns_played := 6
    property_purchased := true
    purchase_turn := 0
    purchase_price := 300
    total_rent_collected := 300
    total_rent_paid := 0
    rent_by_turn := [-300, -260, -180, 0, 0, 0]
    break_even_turn := 3
    final_player_cash := 1600
    player_won := false
    player_bankrupt := false }

/-- A purchased trial whose break-even turn is 5 (C4 fixtures). -/
def trialB : SimulationResult :=
  { trialA with
      rent_by_turn := [-300, -280, -240, -180, -100, 0]
      break_even_turn := 5
      final_player_cash := 1200 }

/-- A trial in which the tracked property was never purchased (C9). -/
def trialNP : SimulationResult :=
  { trialA with
      property_purchased := false
      purchase_turn := -1
      purchase_price := 0
      total_rent_collected := 0
      rent_by_turn := [0, 0, 0, 0, 0, 0]
      break_even_turn := -1 }

/-- A street property for the purchase scenario (C6). -/
def street6 : Property :=
  { position := 0
    name := "S"
    property_type := "Street"
    color := some "Brown"
    purchase_price := some 100
    mortgage_value := some 50
    base_rent := some 2
    rent_with_color_set := some 4
    rent_1_house := some 10
    rent_2_house := some 30
    rent_3_house := some 90
    rent_4_house := some 160
    rent_hotel := some 250
    house_cost := some 50 }

/-- One-space board holding `street6` (C6). -/
def board6 : MonopolyBoard :=
  { properties := [street6], color_groups := [("Brown", [0])] }

/-- Game state for the purchase scenario (C6). -/
def gs6 : GameState :=
  { board := board6, players := [basePlayer], current_turn := 0,
    current_player_idx := 0, total_turns := 0 }

/-- A colorless street with base rent 1000, larger than the payer's cash
(C10). -/
def street10 : Property :=
  { street6 with position := 1, name := "T", color := none, base_rent := some 1000 }

/-- The rent payer of the C10 scenario: 100 in cash, not bankrupt. -/
def payer10 : Player :=
  { basePlayer with name := "q", cash := 100 }

/-- The property owner of the C10 scenario. -/
def owner10 : Player :=
  { basePlayer with name := "o", owned_properties := [1], houses := [(1, 0)] }

/-- Two-space board for the C10 scenario. -/
def board10 : MonopolyBoard :=
  { properties := [mkSpace 0, street10], color_groups := [] }

/-- Game state for the C10 scenario. -/
def gs10 : GameState :=
  { board := board10, players := [payer10, owner10], current_turn := 0,
    current_player_idx := 0, total_turns := 0 }

/-- The payer after paying 1000 rent from 100 cash: negative cash and the
bankrupt flag set (C10). -/
def payerAfter10 : Player :=
  { payer10 with cash := -900, is_bankrupt := true }

/-- The owner after receiving the 1000 rent (C10). -/
def ownerAfter10 : Player :=
  { owner10 with cash := 2500 }

/-- An already-bankrupt player with negative cash (C10 counterexample). -/
def bankruptPlayer : Player :=
  { basePlayer with cash := -50, is_bankrupt := true }

/-- Two Brown streets making up a complete monopoly (C3 scenario). -/
def streetC3a : Property :=
  { street6 with position := 0, name := "Ba" }

/-- Second Brown street of the C3 scenario. -/
def streetC3b : Property :=
  { street6 with
    position := 1, name := "Bb", base_rent := some 4,
    rent_with_color_set := some 8, rent_1_house := some 20 }

/-- Board for the C3 scenario: a two-street Brown color group. -/
def boardC3 : MonopolyBoard :=
  { properties := [streetC3a, streetC3b], color_groups := [("Brown", [0, 1])] }

/-- The C3 player: owns the full Brown monopoly with no houses, cash 1000,
reserve 200. -/
def playerC3 : Player :=
  { basePlayer with
    name := "d", cash := 1000,
    owned_properties := [0, 1], houses := [(0, 0), (1, 0)] }

/-- An opponent so that the C3 scenario has one active opponent. -/
def opponentC3 : Player :=
  { basePlayer with name := "e" }

/-- Game state for the C3 scenario. -/
def gameC3 : GameState :=
  { board := boardC3, players := [playerC3, opponentC3], current_turn := 0,
    current_player_idx := 0, total_turns := 0 }

/-- Expected first selected option of the C3 scenario: the build on
street "Bb" (position 1), with EV 12 x (10/411 x 30 x 1) = 1200/137 and
preference-adjusted priority (24/137) x 1.15 = 138/685. -/
def devOptC3first : DevelopmentOption :=
  { property_positions := [1]
    property_name := "Bb"
    color_group := "Brown"
    current_houses := 0
    new_houses := 1
    cost := 50
    rent_increase := 12
    expected_value := 1200 / 137
    ev_per_dollar := 138 / 685
    is_hotel := false }

/-- Expected second selected option of the C3 scenario: the build on
street "Ba" (position 0). -/
def devOptC3second : DevelopmentOption :=
  { devOptC3first with
    property_positions := [0]
    property_name := "Ba"
    rent_increase := 6
    expected_value := 600 / 137
    ev_per_dollar := 69 / 685 }

/-- C1: the claim says `run_single_simulation` returns a `SimulationResult`
without raising for both values of `enableHouseBuilding`, applying the
optimizer's builds after each turn.  In fact the construction
`GameMechanics(game, enable_house_building=...)` at src/simulator.py line
72 passes a keyword that `GameMechanics.__init__` (src/mechanics.py lines
12-14) does not declare, so every trial raises `TypeError` before a single
turn runs, for both flag values; the optimizer is never invoked. -/
theorem C1_mechanics_construction_raises_TypeError :
    ∀ ehb : Bool,
      runSingleSimulationMechanicsConstruction ehb = Except.error PyErr.typeError := by
  intro ehb
  rfl

/-- C5 counterexample: on a full 40-space board, the negative position -1
does not raise; Python list indexing returns the last element, so
`get_property(-1)` yields the property stored at position 39. -/
theorem C5_counterexample :
    testBoard40.properties.length = 40 ∧
    testBoard40.get_property (-1) = Except.ok (mkSpace 39) := by
  constructor
  · simp [testBoard40]
  · rfl

/-- C5 amended: on a 40-property board, `get_property` returns the stored
property for positions 0-39 and raises `IndexError` (a `LookupError`) for
positions ≥ 40 and < -40; but for positions -40..-1 it silently returns
the property at position + 40 (Python negative indexing) instead of
failing. -/
theorem C5_get_property_amended (b : MonopolyBoard)
    (hb : b.properties.length = 40) (pos : Int) :
    (0 ≤ pos ∧ pos < 40 →
       ∃ p, b.properties.get? pos.toNat = some p ∧
         b.get_property pos = Except.ok p) ∧
    (40 ≤ pos ∨ pos < -40 →
       b.get_property pos = Except.error PyErr.indexError) ∧
    (-40 ≤ pos ∧ pos < 0 →
       ∃ p, b.properties.get? (pos + 40).toNat = some p ∧
         b.get_property pos = Except.ok p) := by
  simp only [MonopolyBoard.get_property, pyListGet, hb, Nat.cast_ofNat]
  refine ⟨?_, ?_, ?_⟩
  · rintro ⟨h0, h40⟩
    rw [if_neg (by omega : ¬ pos < 0), if_pos h0]
    have hlt : pos.toNat < b.properties.length := by omega
    refine ⟨b.properties.get ⟨pos.toNat, hlt⟩, List.get?_eq_get hlt, ?_⟩
    rw [List.get?_eq_get hlt]
  · rintro (h | h)
    · rw [if_neg (by omega : ¬ pos < 0), if_pos (by omega : (0:Int) ≤ pos)]
      have hge : b.properties.length ≤ pos.toNat := by omega
      rw [List.get?_eq_none.2 hge]
    · rw [if_pos (by omega : pos < 0), if_neg (by omega : ¬ (0:Int) ≤ pos + 40)]
  · rintro ⟨hm40, h0⟩
    rw [if_pos (by omega : pos < 0), if_pos (by omega : (0:Int) ≤ pos + 40)]
    have hlt : (pos + 40).toNat < b.properties.length := by omega
    refine ⟨b.properties.get ⟨(pos + 40).toNat, hlt⟩, List.get?_eq_get hlt, ?_⟩
    rw [List.get?_eq_get hlt]

/-- C5 witness: the amended theorem applied on the 40-space test board at
the out-of-range position 40, which does raise IndexError. -/
theorem C5_amended_witness :
    testBoard40.properties.length = 40 ∧
    testBoard40.get_property 40 = Except.error PyErr.indexError := by
  have hb : testBoard40.properties.length = 40 := by simp [testBoard40]
  exact ⟨hb, (C5_get_property_amended testBoard40 hb 40).2.1 (Or.inl (by norm_num))⟩

/-- The normalization constant of the landing-probability table:
26 uniform spaces, the four boosted Orange spaces, four Red, four
railroads, the jail space and the zeroed Go-To-Jail space sum to
411/400 before renormalization. -/
theorem landingProbTotal_eq : landingProbTotal = 411 / 400 := by
  simp only [landingProbTotal, List.range_succ, List.map_append, List.map_cons,
    List.map_nil, List.sum_append, List.sum_cons, List.sum_nil, List.range_zero]
  norm_num [rawLandingProb]

/-- C8: the landing-probability table assigns probability exactly 0 to the
send-to-jail position 30, and after the single renormalization at
construction the 40 entries sum to exactly 1 (in particular within
1e-9). -/
theorem C8_landing_probability_table :
    landingProbs 30 = 0 ∧
    ((List.range 40).map landingProbs).sum = 1 ∧
    |((List.range 40).map landingProbs).sum - 1| ≤ 1 / 1000000000 := by
  have h30 : landingProbs 30 = 0 := by
    norm_num [landingProbs, rawLandingProb, landingProbTotal_eq]
  have hsum : ((List.range 40).map landingProbs).sum = 1 := by
    simp only [List.range_succ, List.map_append, List.map_cons,
      List.map_nil, List.sum_append, List.sum_cons, List.sum_nil, List.range_zero]
    norm_num [landingProbs, rawLandingProb, landingProbTotal_eq]
  exact ⟨h30, hsum, by rw [hsum]; norm_num⟩

/-- C2: in the section-8 boundary scenario (cash 500, reserve 200, budget
300, two eligible 150-cost builds on distinct properties) the greedy
selection selects both builds for a committed spend of 300: the skip test
is the strict `spent + cost > budget` (300 > 300 is false, so the second
build is taken), and the 95%-of-budget rule stops the scan only after the
spend reaches 285; the third conjunct exhibits the stop by adding a
would-be-selectable trailing option that the loop never reaches. -/
theorem C2_greedy_selection_boundary :
    greedySelection [optA, optB] (500 - 200) = [optA, optB] ∧
    ((greedySelection [optA, optB] (500 - 200)).map (fun o => o.cost)).sum = 300 ∧
    greedySelection [optA, optB, optC0] (500 - 200) = [optA, optB] := by
  refine ⟨?_, ?_, ?_⟩ <;>
    norm_num [greedySelection, greedySelectionGo, optionConflicts, evDescending,
      List.insertionSort, List.orderedInsert, optA, optB, optC0]

/-- C6: on an unowned purchasable property with a defined price, the
purchase attempt defers to `buy_property`; it succeeds iff cash minus
price still meets the minimum reserve, on success exactly the price is
deducted, the position is appended to the owned list and its house count
is initialized to 0, and on failure the player is entirely unchanged. -/
theorem C6_purchase_property (g : GameState) (player : Player) (position : Int)
    (prop : Property) (price : ℚ)
    (hprop : g.board.get_property position = Except.ok prop)
    (hpurch : prop.is_purchasable = true)
    (howner : g.get_property_owner position = none)
    (hprice : prop.purchase_price = some price) :
    purchase_property g player position =
      Except.ok (player.buy_property position price) ∧
    ((player.buy_property position price).2 = true ↔
       player.min_cash_reserve ≤ player.cash - price) ∧
    ((player.buy_property position price).2 = true →
       (player.buy_property position price).1 =
         { player with
             cash := player.cash - price,
             owned_properties := player.owned_properties ++ [position],
             houses := dictInsert player.houses position 0 }) ∧
    ((player.buy_property position price).2 = false →
       (player.buy_property position price).1 = player) := by
  refine ⟨?_, ?_, ?_, ?_⟩
  · simp [purchase_property, hprop, hpurch, howner, hprice]
  · by_cases hc : player.min_cash_reserve ≤ player.cash - price <;>
      simp [Player.buy_property, Player.can_afford, ge_iff_le, hc]
  · by_cases hc : player.min_cash_reserve ≤ player.cash - price <;>
      simp [Player.buy_property, Player.can_afford, ge_iff_le, hc]
  · by_cases hc : player.min_cash_reserve ≤ player.cash - price <;>
      simp [Player.buy_property, Player.can_afford, ge_iff_le, hc]

/-- C6 witness: the purchase theorem applied to the one-street scenario
(price 100, cash 1500, reserve 200). -/
theorem C6_purchase_property_witness :
    purchase_property gs6 basePlayer 0 =
      Except.ok (basePlayer.buy_property 0 100) ∧
    ((basePlayer.buy_property 0 100).2 = true ↔
       basePlayer.min_cash_reserve ≤ basePlayer.cash - 100) :=
  ⟨(C6_purchase_property gs6 basePlayer 0 street6 100 rfl rfl rfl rfl).1,
   (C6_purchase_property gs6 basePlayer 0 street6 100 rfl rfl rfl rfl).2.1⟩

/-- C9: aggregating a batch in which the tracked property was never
purchased returns, without raising, the explicit "never purchased"
aggregate carrying purchase rate 0 and the distinguishing error status;
no statistic is computed over the empty set. -/
theorem C9_never_purchased (board : MonopolyBoard) (results : List SimulationResult)
    (position : Int) (prop : Property)
    (hprop : board.get_property position = Except.ok prop)
    (hall : ∀ r ∈ results, r.property_purchased = false) :
    aggregateResults board results position =
      Except.ok (AggregateResult.neverPurchased prop.name prop.purchase_price 0
        "Property never purchased in simulations") := by
  have hfilter : purchasedOf results = [] := by
    refine List.filter_eq_nil_iff.2 ?_
    intro r hr
    simp [hall r hr]
  simp only [aggregateResults, hprop]
  simp [aggregateCore, hfilter]

/-- C9 witness: one unpurchased trial on the 40-space test board. -/
theorem C9_never_purchased_witness :
    aggregateResults testBoard40 [trialNP] 0 =
      Except.ok (AggregateResult.neverPurchased (mkSpace 0).name (mkSpace 0).purchase_price 0
        "Property never purchased in simulations") :=
  C9_never_purchased testBoard40 [trialNP] 0 (mkSpace 0) rfl (by decide)

/-- C10 counterexample: the claim says no operation ever restores the
negative cash of a bankrupt player.  `Player.receive` does: rent collected
by a bankrupt owner (src/mechanics.py line 91 calls `owner.receive` with
no bankruptcy check) raises the cash from -50 to 50, non-negative, while
the bankrupt flag stays set. -/
theorem C10_counterexample :
    bankruptPlayer.is_bankrupt = true ∧
    bankruptPlayer.cash < 0 ∧
    0 ≤ (bankruptPlayer.receive 100).cash ∧
    (bankruptPlayer.receive 100).is_bankrupt = true := by
  refine ⟨rfl, ?_, ?_, rfl⟩
  · norm_num [bankruptPlayer, basePlayer]
  · norm_num [Player.receive, bankruptPlayer, basePlayer]

/-- C10 amended: when a player lands on another player's property the full
computed rent is transferred uncapped — payer cash drops by exactly the
rent (possibly below zero), owner cash rises by exactly the rent; for a
payer not already bankrupt, the bankrupt flag ends set iff the resulting
cash is negative; no player operation ever clears the bankrupt flag —
but a bankrupt player's negative cash can later become non-negative again
through `receive`. -/
theorem C10_rent_transfer_amended (g : GameState) (position : Int)
    (payer owner payerAfter ownerAfter : Player) (rent : ℚ)
    (hnb : payer.is_bankrupt = false)
    (h : handleRentPayment g position payer owner =
      Except.ok (payerAfter, ownerAfter, rent)) :
    payerAfter.cash = payer.cash - rent ∧
    ownerAfter.cash = owner.cash + rent ∧
    (payerAfter.is_bankrupt = true ↔ payerAfter.cash < 0) ∧
    ownerAfter.is_bankrupt = owner.is_bankrupt ∧
    (∀ (p : Player) (amt : ℚ), p.is_bankrupt = true →
       (p.pay amt).1.is_bankrupt = true ∧ (p.receive amt).is_bankrupt = true) ∧
    (∀ (p : Player) (pos2 : Int) (pr : ℚ), p.is_bankrupt = true →
       (p.buy_property pos2 pr).1.is_bankrupt = true) ∧
    (∀ (p : Player) (s bs : Int), p.is_bankrupt = true →
       (p.move s bs).1.is_bankrupt = true) := by
  rw [handleRentPayment] at h
  rcases hcr : calculate_rent g position owner with e | r
  · rw [hcr] at h; cases h
  · rw [hcr] at h
    rw [Except.ok.injEq, Prod.mk.injEq, Prod.mk.injEq] at h
    obtain ⟨hp, ho, hr⟩ := h
    subst hp; subst ho; subst hr
    refine ⟨?_, rfl, ?_, rfl, ?_, ?_, ?_⟩
    · rw [Player.pay]; split <;> rfl
    · rw [Player.pay]; split
      next hlt => simpa using hlt
      next hge => simp [hnb]; simpa using hge
    · intro p amt hb
      refine ⟨?_, hb⟩
      rw [Player.pay]; split
      · rfl
      · simpa using hb
    · intro p pos2 pr hb
      rw [Player.buy_property]; split
      · simpa using hb
      · simpa using hb
    · intro p s bs hb
      simpa [Player.move] using hb

/-- C10 witness: the amended theorem applied to the concrete scenario in
which a payer with 100 cash owes 1000 rent: cash goes to -900, the flag is
set, the owner gains the full 1000. -/
theorem C10_rent_transfer_witness :
    payerAfter10.cash = payer10.cash - 1000 ∧
    ownerAfter10.cash = owner10.cash + 1000 ∧
    (payerAfter10.is_bankrupt = true ↔ payerAfter10.cash < 0) := by
  have h : handleRentPayment gs10 1 payer10 owner10 =
      Except.ok (payerAfter10, ownerAfter10, 1000) := by
    norm_num [handleRentPayment, calculate_rent, Player.pay, Player.receive,
      gs10, board10, street10, street6, mkSpace, payer10, owner10, basePlayer,
      payerAfter10, ownerAfter10, MonopolyBoard.get_property, pyListGet, dictGet,
      Player.owns_property, Property.get_rent, Property.is_purchasable]
    rw [if_neg (by decide : ¬ ("Street" : String) = "Railroad"),
      if_neg (by decide : ¬ ("Street" : String) = "Utility")]
    norm_num
  have hall := C10_rent_transfer_amended gs10 1 payer10 owner10
    payerAfter10 ownerAfter10 1000 rfl h
  exact ⟨hall.1, hall.2.1, hall.2.2.1⟩

/-- Characterization of the break-even scan loop: with the scan starting
at absolute index `s`, `breakEvenGo` returns the absolute index of the
first entry lying strictly after the purchase turn with value ≥ 0, and -1
when no entry qualifies. -/
theorem breakEvenGo_eq_iff (pt : Int) (l : List ℚ) :
    ∀ (s : Nat) (t : Int),
      breakEvenGo pt s l = t ↔
        ((t = -1 ∧ ∀ i, i < l.length → pt < ((s + i : Nat) : Int) → l.getD i 0 < 0) ∨
         (∃ i, i < l.length ∧ t = ((s + i : Nat) : Int) ∧ pt < ((s + i : Nat) : Int) ∧
            0 ≤ l.getD i 0 ∧
            ∀ j, j < i → pt < ((s + j : Nat) : Int) → l.getD j 0 < 0)) := by
  induction l with
  | nil =>
    intro s t
    simp only [breakEvenGo, List.length_nil]
    constructor
    · rintro rfl
      exact Or.inl ⟨rfl, fun i hi => absurd hi (by omega)⟩
    · rintro (⟨rfl, _⟩ | ⟨i, hi, _⟩)
      · rfl
      · exact absurd hi (by omega)
  | cons c rest ih =>
    intro s t
    rw [breakEvenGo]
    by_cases hc : pt < (s : Int) ∧ 0 ≤ c
    · rw [if_pos hc]
      constructor
      · rintro rfl
        refine Or.inr ⟨0, by simp, by simp, by simpa using hc.1, ?_, ?_⟩
        · simpa [List.getD_cons_zero] using hc.2
        · intro j hj
          omega
      · rintro (⟨ht, hall⟩ | ⟨i, hilen, ht, hpt, hge, hmin⟩)
        · have h0 := hall 0 (by simp) (by simpa using hc.1)
          rw [List.getD_cons_zero] at h0
          exact absurd hc.2 (not_le.2 h0)
        · rcases i with _ | i'
          · simpa using ht.symm
          · have h0 := hmin 0 (by omega) (by simpa using hc.1)
            rw [List.getD_cons_zero] at h0
            exact absurd hc.2 (not_le.2 h0)
    · rw [if_neg hc]
      rw [ih (s + 1) t]
      constructor
      · rintro (⟨rfl, hall⟩ | ⟨i, hilen, ht, hpt, hge, hmin⟩)
        · refine Or.inl ⟨rfl, ?_⟩
          intro i hi hpt
          rcases i with _ | i'
          · rw [List.getD_cons_zero]
            by_contra hpos
            exact hc ⟨by simpa using hpt, by linarith [not_lt.1 hpos]⟩
          · rw [List.getD_cons_succ]
            exact hall i' (by simp at hi; omega) (by omega)
        · refine Or.inr ⟨i + 1, by simp; omega, by omega, by omega, ?_, ?_⟩
          · rw [List.getD_cons_succ]
            exact hge
          · intro j hj hptj
            rcases j with _ | j'
            · rw [List.getD_cons_zero]
              by_contra hpos
              exact hc ⟨by simpa using hptj, by linarith [not_lt.1 hpos]⟩
            · rw [List.getD_cons_succ]
              exact hmin j' (by omega) (by omega)
      · rintro (⟨rfl, hall⟩ | ⟨i, hilen, ht, hpt, hge, hmin⟩)
        · refine Or.inl ⟨rfl, ?_⟩
          intro i hi hpt
          have := hall (i + 1) (by simp; omega) (by omega)
          rw [List.getD_cons_succ] at this
          exact this
        · rcases i with _ | i'
          · rw [List.getD_cons_zero] at hge
            exact absurd ⟨by simpa using hpt, hge⟩ hc
          · refine Or.inr ⟨i', by simp at hilen; omega, by omega, by omega, ?_, ?_⟩
            · rw [List.getD_cons_succ] at hge
              exact hge
            · intro j hj hptj
              have := hmin (j + 1) (by omega) (by omega)
              rw [List.getD_cons_succ] at this
              exact this

/-- C7: for a purchased trial, the reported break-even turn is exactly the
first recorded turn strictly after the purchase turn whose cumulative-net
value is ≥ 0, and -1 when no recorded turn qualifies; in particular the
section-8 scenario (price 300, cumulative-net series
[-300,-280,-240,-180,-100,0]) yields break-even turn 5. -/
theorem C7_break_even_turn :
    (∀ (pt : Int) (rbt : List ℚ) (t : Int),
       computeBreakEvenTurn true pt rbt = t ↔
         ((t = -1 ∧ ∀ i, i < rbt.length → pt < (i : Int) → rbt.getD i 0 < 0) ∨
          (∃ i, i < rbt.length ∧ t = (i : Int) ∧ pt < (i : Int) ∧ 0 ≤ rbt.getD i 0 ∧
             ∀ j, j < i → pt < (j : Int) → rbt.getD j 0 < 0))) ∧
    computeBreakEvenTurn true 0 [-300, -280, -240, -180, -100, 0] = 5 := by
  constructor
  · intro pt rbt t
    have h := breakEvenGo_eq_iff pt rbt 0 t
    simpa [computeBreakEvenTurn] using h
  · decide

/-- The greedy selection loop only ever emits options drawn from its input
scan list or its accumulator. -/
theorem mem_greedySelectionGo (cash : ℚ) :
    ∀ (l selected : List DevelopmentOption) (spent : ℚ) (o : DevelopmentOption),
      o ∈ greedySelectionGo cash l selected spent → o ∈ l ∨ o ∈ selected := by
  intro l
  induction l with
  | nil =>
    intro sel sp o h
    rw [greedySelectionGo] at h
    exact Or.inr h
  | cons a rest ih =>
    intro sel sp o h
    rw [greedySelectionGo] at h
    dsimp only at h
    split at h
    · rcases ih _ _ _ h with h1 | h2
      · exact Or.inl (List.mem_cons_of_mem a h1)
      · exact Or.inr h2
    · split at h
      · rcases ih _ _ _ h with h1 | h2
        · exact Or.inl (List.mem_cons_of_mem a h1)
        · exact Or.inr h2
      · split at h
        · rcases List.mem_append.1 h with h1 | h2
          · exact Or.inr h1
          · exact Or.inl (List.mem_cons.2 (Or.inl (List.mem_singleton.1 h2)))
        · rcases ih _ _ _ h with h1 | h2
          · exact Or.inl (List.mem_cons_of_mem a h1)
          · rcases List.mem_append.1 h2 with h3 | h4
            · exact Or.inr h3
            · exact Or.inl (List.mem_cons.2 (Or.inl (List.mem_singleton.1 h4)))

/-- Every option returned by `_greedy_selection` comes from the input
option list. -/
theorem mem_greedySelection (options : List DevelopmentOption) (cash : ℚ)
    (o : DevelopmentOption) (h : o ∈ greedySelection options cash) : o ∈ options := by
  rcases mem_greedySelectionGo cash _ [] 0 o h with h1 | h2
  · exact (List.mem_insertionSort _).1 h1
  · simp at h2

/-- C3: every option the optimizer returns carries
`expected_value = rent_increase x landing_probability(position) x
remaining_turns x active_opponents`, and applying the strategic
preferences changes only the priority score, never the `expected_value`
field. -/
theorem C3_expected_value_frame (player : Player) (g : GameState) (turns : Nat)
    (o : DevelopmentOption) (ho : o ∈ decideDevelopment player g turns) :
    o.expected_value =
      o.rent_increase * (landingProbsGet o.property_positions.headI *
        (turns : ℚ) * (numOpponents g player : ℚ)) ∧
    (∀ (o2 : DevelopmentOption) (p2 : Player),
       (applyStrategicPreferences o2 p2).expected_value = o2.expected_value) := by
  refine ⟨?_, fun o2 p2 => rfl⟩
  unfold decideDevelopment at ho
  dsimp only at ho
  split at ho
  · simp at ho
  · split at ho
    · simp at ho
    · split at ho
      · simp at ho
      · have hmem := mem_greedySelection _ _ _ ho
        rw [List.mem_map] at hmem
        obtain ⟨o1, hmem1, rfl⟩ := hmem
        rw [List.mem_map] at hmem1
        obtain ⟨o0, hmem0, rfl⟩ := hmem1
        simp [applyStrategicPreferences, assignScores, calculateExpectedValue]

/-- C3 witness: in the two-street Brown-monopoly scenario the optimizer
returns the two builds, and the first one satisfies the expected-value
formula. -/
theorem C3_expected_value_frame_witness :
    devOptC3first ∈ decideDevelopment playerC3 gameC3 30 ∧
    devOptC3first.expected_value =
      devOptC3first.rent_increase *
        (landingProbsGet devOptC3first.property_positions.headI *
          (30 : ℚ) * (numOpponents gameC3 playerC3 : ℚ)) := by
  have hlist : decideDevelopment playerC3 gameC3 30 = [devOptC3first, devOptC3second] := by
    norm_num [decideDevelopment, getPlayerMonopolies, generateDevelopmentOptions,
      generateOptionsForGroup, assignScores, calculateExpectedValue,
      applyStrategicPreferences, strategicMultiplier, greedySelection,
      greedySelectionGo, optionConflicts, evDescending, numOpponents,
      landingProbsGet, landingProbs, rawLandingProb, landingProbTotal_eq,
      Player.owns_property, dictGet, MonopolyBoard.get_property, pyListGet,
      Property.get_rent, Property.is_purchasable, List.insertionSort,
      List.orderedInsert, playerC3, opponentC3, gameC3, boardC3,
      streetC3a, streetC3b, street6, basePlayer, devOptC3first, devOptC3second,
      (by decide : ¬ ("Brown" : String) = "Orange"),
      (by decide : ¬ ("Brown" : String) = "Red"),
      (by decide : ¬ ("Brown" : String) = "Yellow"),
      (by decide : ¬ ("e" : String) = "d"),
      Option.some_ne_none]
  have hmem : devOptC3first ∈ decideDevelopment playerC3 gameC3 30 := by
    rw [hlist]
    exact List.mem_cons_self _ _
  exact ⟨hmem, (C3_expected_value_frame playerC3 gameC3 30 devOptC3first hmem).1⟩

/-- Permutations preserve emptiness. -/
theorem perm_isEmpty_eq {α : Type} {l₁ l₂ : List α} (h : List.Perm l₁ l₂) :
    l₁.isEmpty = l₂.isEmpty := by
  have hl := h.length_eq
  cases l₁ <;> cases l₂ <;> simp_all

/-- The mean is permutation-invariant. -/
theorem meanQ_perm {l₁ l₂ : List ℚ} (h : l₁.Perm l₂) : meanQ l₁ = meanQ l₂ := by
  unfold meanQ
  rw [h.sum_eq, h.length_eq]

/-- Sorting identifies permuted rational lists. -/
theorem sortQ_perm {l₁ l₂ : List ℚ} (h : l₁.Perm l₂) : sortQ l₁ = sortQ l₂ :=
  List.eq_of_perm_of_sorted
    (((List.perm_insertionSort _ l₁).trans h).trans (List.perm_insertionSort _ l₂).symm)
    (List.sorted_insertionSort _ l₁) (List.sorted_insertionSort _ l₂)

/-- Sorting identifies permuted integer lists. -/
theorem sortInt_perm {l₁ l₂ : List Int} (h : l₁.Perm l₂) : sortInt l₁ = sortInt l₂ :=
  List.eq_of_perm_of_sorted
    (((List.perm_insertionSort _ l₁).trans h).trans (List.perm_insertionSort _ l₂).symm)
    (List.sorted_insertionSort _ l₁) (List.sorted_insertionSort _ l₂)

/-- The median is permutation-invariant. -/
theorem medianQ_perm {l₁ l₂ : List ℚ} (h : l₁.Perm l₂) : medianQ l₁ = medianQ l₂ := by
  unfold medianQ
  rw [sortQ_perm h]

/-- The variance (squared np.std) is permutation-invariant. -/
theorem varQ_perm {l₁ l₂ : List ℚ} (h : l₁.Perm l₂) : varQ l₁ = varQ l₂ := by
  unfold varQ
  simp only [meanQ_perm h]
  exact meanQ_perm (h.map _)

/-- Percentiles are permutation-invariant. -/
theorem percentileQ_perm (q : ℚ) {l₁ l₂ : List ℚ} (h : l₁.Perm l₂) :
    percentileQ q l₁ = percentileQ q l₂ := by
  unfold percentileQ
  rw [sortQ_perm h]

/-- A fold with `max` is permutation-invariant. -/
theorem foldrMax_perm {l₁ l₂ : List ℕ} (h : l₁.Perm l₂) (a : ℕ) :
    l₁.foldr max a = l₂.foldr max a := by
  induction h with
  | nil => rfl
  | cons x h ih => simp [List.foldr, ih]
  | swap x y l => simp [List.foldr, Nat.max_left_comm]
  | trans h1 h2 ih1 ih2 => exact ih1.trans ih2

/-- C4 counterexample: aggregating two purchased trials in the two input
orders produces different `break_even_distribution` fields ([3,5] versus
[5,3]), so the full statistics record is not invariant under reordering
the trial list, contrary to the claim that every field is. -/
theorem C4_counterexample :
    ([trialA, trialB]).Perm [trialB, trialA] ∧
    Except.map breakEvenDistributionOf (aggregateResults testBoard40 [trialA, trialB] 0) =
      Except.ok (some [3, 5]) ∧
    Except.map breakEvenDistributionOf (aggregateResults testBoard40 [trialB, trialA] 0) =
      Except.ok (some [5, 3]) ∧
    aggregateResults testBoard40 [trialA, trialB] 0 ≠
      aggregateResults testBoard40 [trialB, trialA] 0 := by
  refine ⟨List.Perm.swap trialB trialA [], rfl, rfl, ?_⟩
  intro hEq
  have h1 : (some [(3:Int), 5] : Option (List Int)) = some [(5:Int), 3] :=
    Except.ok.inj (congrArg (Except.map breakEvenDistributionOf) hEq)
  exact absurd h1 (by decide)

/-- Core permutation-invariance of the aggregation body: up to the
canonicalized break-even distribution, every field of the statistics
record is a pure reduction of the trial multiset. -/
theorem aggregateCore_perm (prop : Property) (position : Int)
    {l₁ l₂ : List SimulationResult} (h : l₁.Perm l₂) :
    normalizeAggregate (aggregateCore prop l₁ position) =
      normalizeAggregate (aggregateCore prop l₂ position) := by
  have hp : (purchasedOf l₁).Perm (purchasedOf l₂) := h.filter _
  have hE : (purchasedOf l₁).isEmpty = (purchasedOf l₂).isEmpty := perm_isEmpty_eq hp
  have hbe : (breakEvenTurnsOf (purchasedOf l₁)).Perm (breakEvenTurnsOf (purchasedOf l₂)) :=
    (hp.filter _).map _
  have hbeE : (breakEvenTurnsOf (purchasedOf l₁)).isEmpty
      = (breakEvenTurnsOf (purchasedOf l₂)).isEmpty := perm_isEmpty_eq hbe
  have hmax : maxTurnOf (purchasedOf l₁) = maxTurnOf (purchasedOf l₂) :=
    foldrMax_perm (hp.map _) 0
  unfold aggregateCore
  dsimp only
  by_cases he : (purchasedOf l₁).isEmpty = true
  · have he₂ : (purchasedOf l₂).isEmpty = true := hE ▸ he
    rw [if_pos he, if_pos he₂]
  · have he₂ : ¬ (purchasedOf l₂).isEmpty = true := by
      rw [← hE]
      exact he
    rw [if_neg he, if_neg he₂]
    have hbeMean :
        (if (breakEvenTurnsOf (purchasedOf l₁)).isEmpty then (-1 : ℚ)
          else meanQ ((breakEvenTurnsOf (purchasedOf l₁)).map (fun (i : Int) => (i : ℚ)))) =
        (if (breakEvenTurnsOf (purchasedOf l₂)).isEmpty then (-1 : ℚ)
          else meanQ ((breakEvenTurnsOf (purchasedOf l₂)).map (fun (i : Int) => (i : ℚ)))) := by
      rw [hbeE]
      by_cases hbee : (breakEvenTurnsOf (purchasedOf l₂)).isEmpty = true
      · rw [if_pos hbee, if_pos hbee]
      · rw [if_neg hbee, if_neg hbee]
        exact meanQ_perm (hbe.map _)
    have hbeMedian :
        (if (breakEvenTurnsOf (purchasedOf l₁)).isEmpty then (-1 : ℚ)
          else medianQ ((breakEvenTurnsOf (purchasedOf l₁)).map (fun (i : Int) => (i : ℚ)))) =
        (if (breakEvenTurnsOf (purchasedOf l₂)).isEmpty then (-1 : ℚ)
          else medianQ ((breakEvenTurnsOf (purchasedOf l₂)).map (fun (i : Int) => (i : ℚ)))) := by
      rw [hbeE]
      by_cases hbee : (breakEvenTurnsOf (purchasedOf l₂)).isEmpty = true
      · rw [if_pos hbee, if_pos hbee]
      · rw [if_neg hbee, if_neg hbee]
        exact medianQ_perm (hbe.map _)
    have hbeVar :
        (if (breakEvenTurnsOf (purchasedOf l₁)).isEmpty then (0 : ℚ)
          else varQ ((breakEvenTurnsOf (purchasedOf l₁)).map (fun (i : Int) => (i : ℚ)))) =
        (if (breakEvenTurnsOf (purchasedOf l₂)).isEmpty then (0 : ℚ)
          else varQ ((breakEvenTurnsOf (purchasedOf l₂)).map (fun (i : Int) => (i : ℚ)))) := by
      rw [hbeE]
      by_cases hbee : (breakEvenTurnsOf (purchasedOf l₂)).isEmpty = true
      · rw [if_pos hbee, if_pos hbee]
      · rw [if_neg hbee, if_neg hbee]
        exact varQ_perm (hbe.map _)
    have hcMean :
        (List.range (maxTurnOf (purchasedOf l₁) + 1)).map
            (fun t => meanQ (rentColumn (purchasedOf l₁) t)) =
        (List.range (maxTurnOf (purchasedOf l₂) + 1)).map
            (fun t => meanQ (rentColumn (purchasedOf l₂) t)) := by
      rw [hmax]
      exact List.map_congr_left (fun t _ => meanQ_perm (hp.map _))
    have hcVar :
        (List.range (maxTurnOf (purchasedOf l₁) + 1)).map
            (fun t => varQ (rentColumn (purchasedOf l₁) t)) =
        (List.range (maxTurnOf (purchasedOf l₂) + 1)).map
            (fun t => varQ (rentColumn (purchasedOf l₂) t)) := by
      rw [hmax]
      exact List.map_congr_left (fun t _ => varQ_perm (hp.map _))
    have hcP25 :
        (List.range (maxTurnOf (purchasedOf l₁) + 1)).map
            (fun t => percentileQ 25 (rentColumn (purchasedOf l₁) t)) =
        (List.range (maxTurnOf (purchasedOf l₂) + 1)).map
            (fun t => percentileQ 25 (rentColumn (purchasedOf l₂) t)) := by
      rw [hmax]
      exact List.map_congr_left (fun t _ => percentileQ_perm 25 (hp.map _))
    have hcP75 :
        (List.range (maxTurnOf (purchasedOf l₁) + 1)).map
            (fun t => percentileQ 75 (rentColumn (purchasedOf l₁) t)) =
        (List.range (maxTurnOf (purchasedOf l₂) + 1)).map
            (fun t => percentileQ 75 (rentColumn (purchasedOf l₂) t)) := by
      rw [hmax]
      exact List.map_congr_left (fun t _ => percentileQ_perm 75 (hp.map _))
    unfold normalizeAggregate
    dsimp only
    rw [h.length_eq, hp.length_eq, hbe.length_eq, hbeMean, hbeMedian, hbeVar,
      sortInt_perm hbe, hcMean, hcVar, hcP25, hcP75,
      meanQ_perm (hp.map (fun r => r.total_rent_collected)),
      medianQ_perm (hp.map (fun r => r.total_rent_collected)),
      varQ_perm (hp.map (fun r => r.total_rent_collected)),
      meanQ_perm (hp.map (fun r => if r.player_won then (1 : ℚ) else 0)),
      meanQ_perm (hp.map (fun r => if r.player_bankrupt then (1 : ℚ) else 0)),
      meanQ_perm (hp.map (fun r => r.final_player_cash))]

/-- C4 amended: aggregation is permutation-invariant in every field except
the raw `break_even_distribution`, which is produced in input order and is
only invariant as a multiset: after canonicalizing that one field by
sorting, the aggregates of any two permutations of the trial list are
identical (the "never purchased" branch included). -/
theorem C4_aggregate_perm (board : MonopolyBoard) (position : Int)
    (l₁ l₂ : List SimulationResult) (h : l₁.Perm l₂) :
    Except.map normalizeAggregate (aggregateResults board l₁ position) =
      Except.map normalizeAggregate (aggregateResults board l₂ position) := by
  unfold aggregateResults
  cases hb : board.get_property position with
  | error e => rfl
  | ok prop =>
    simp only [Except.map]
    exact congrArg Except.ok (aggregateCore_perm prop position h)

/-- C4 witness: the amended invariance applied to the concrete two-trial
swap. -/
theorem C4_aggregate_perm_witness :
    Except.map normalizeAggregate (aggregateResults testBoard40 [trialA, trialB] 0) =
      Except.map normalizeAggregate (aggregateResults testBoard40 [trialB, trialA] 0) :=
  C4_aggregate_perm testBoard40 0 [trialA, trialB] [trialB, trialA]
    (List.Perm.swap trialB trialA [])
